import Mathlib

/-!
Verification of the Session & Upload Orchestration subsystem of the lolcam
selfie-booth application (src/core/session_manager.py, src/core/app.py,
src/core/network_monitor.py), as a shallow embedding in Lean 4.

Modelling conventions:
* Timestamps (`datetime.now()`) are integers (seconds); they enter the
  operations as explicit `now` arguments.
* `datetime.isoformat()` / `datetime.fromisoformat` form a bijection between
  datetimes and their ISO strings, so an ISO string is modelled as a wrapper
  `IsoString` around the timestamp it denotes; a JSON-level time value is
  either such a string or an already-converted datetime (`TimeVal`).
* The Python dict `active_sessions` is an insertion-ordered association list;
  dict assignment replaces the value in place when the key is present and
  appends otherwise, `del` removes the entry.
* Python truthiness of an optional string (`if not drive_url:`) is the
  predicate `falsy`: `None` and `""` are falsy.
* An operation that can raise is `Except Unit _`; an operation whose
  exceptions are all caught internally is a total function.
-/

/-- An ISO-8601 string produced by `datetime.isoformat()`, identified by the
timestamp it denotes (isoformat/fromisoformat are mutually inverse). -/
structure IsoString where
  t : Int
deriving DecidableEq, Repr

/-- A time value as it appears in a queue item's `added_at` field: either an
ISO string (as written by `add_photo` and by `_save_offline_queue`) or a
parsed `datetime` (as produced by `_load_offline_queue`). -/
inductive TimeVal where
  | tstr : IsoString → TimeVal
  | tdt : Int → TimeVal
deriving DecidableEq, Repr

/-- One entry of `SessionManager.offline_queue`
(src/core/session_manager.py, `add_photo`). -/
structure QueueItem where
  session_id : String
  photo_path : String
  added_at : TimeVal
deriving DecidableEq, Repr

/-- One photo record of a session (src/core/session_manager.py, `add_photo`). -/
structure Photo where
  local_path : String
  drive_url : Option String
  captured_at : Int
  uploaded : Bool
deriving DecidableEq, Repr

/-- A session record (src/core/session_manager.py, `create_session`). -/
structure Session where
  created_at : Int
  photos : List Photo
  folder_id : Option String
  drive_url : Option String
  is_online : Bool
deriving DecidableEq, Repr

/-- The mutable state of a `SessionManager`: the `active_sessions` dict
(insertion-ordered association list) and the `offline_queue` list. -/
structure SMState where
  active_sessions : List (String × Session)
  offline_queue : List QueueItem
deriving DecidableEq, Repr

/-- Python truthiness test `not s` for an optional string: `None` and the
empty string are falsy. -/
def falsy (s : Option String) : Bool :=
  s.getD "" = ""

/-- Dict lookup `m[k]` / `k in m`: first entry with the given key. -/
def lookupSession (m : List (String × Session)) (sid : String) : Option Session :=
  (m.find? (fun p => p.1 = sid)).map (fun p => p.2)

/-- The entrywise effect of dict assignment on a present key. -/
def setEntry (k : String) (v : Session) (p : String × Session) : String × Session :=
  if p.1 = k then (k, v) else p

/-- Dict assignment `m[k] = v`: replaces in place when the key is present,
appends otherwise. -/
def dictSet (m : List (String × Session)) (k : String) (v : Session) :
    List (String × Session) :=
  if m.any (fun p => p.1 = k) then m.map (setEntry k v)
  else m ++ [(k, v)]

/-- Dict deletion `del m[k]`. -/
def dictDel (m : List (String × Session)) (k : String) : List (String × Session) :=
  m.filter (fun p => ¬ p.1 = k)

/-- `SessionManager.create_session`: registers a fresh empty session under the
generated id `sid` (the uuid is an input of the model) with the current time. -/
def create_session (st : SMState) (sid : String) (now : Int) : SMState :=
  let fresh : Session :=
    { created_at := now, photos := [], folder_id := none,
      drive_url := none, is_online := true }
  { st with active_sessions := dictSet st.active_sessions sid fresh }

/-- `SessionManager.add_photo`: raises `ValueError` when the session id is
unknown; otherwise appends a photo record and, when the url is falsy, also
appends an offline-queue item whose `added_at` is the ISO string of `now`. -/
def add_photo (st : SMState) (sid path : String) (url : Option String) (now : Int) :
    Except Unit SMState :=
  match lookupSession st.active_sessions sid with
  | none => .error ()
  | some sess =>
    let photo : Photo :=
      { local_path := path, drive_url := url, captured_at := now,
        uploaded := url.isSome }
    let st1 : SMState :=
      { st with active_sessions :=
          dictSet st.active_sessions sid { sess with photos := sess.photos ++ [photo] } }
    if falsy url then
      .ok { st1 with offline_queue :=
              st1.offline_queue ++
                [{ session_id := sid, photo_path := path, added_at := .tstr { t := now } }] }
    else
      .ok st1

/-- The QR payload returned by `SessionManager.get_qr_data`. -/
inductive QRData where
  | online (url : String) (photo_count : Nat) (session_id : String)
  | offline (session_id : String) (photo_count : Nat) (message : String)
deriving DecidableEq, Repr

/-- `SessionManager.get_qr_data`: `None` for an unknown session; the `online`
payload when the session-level `drive_url` is truthy, the `offline` payload
otherwise. -/
def get_qr_data (st : SMState) (sid : String) : Option QRData :=
  match lookupSession st.active_sessions sid with
  | none => none
  | some sess =>
    if falsy sess.drive_url then
      some (.offline sid sess.photos.length "Photos will be available online later")
    else
      some (.online (sess.drive_url.getD "") sess.photos.length sid)

/-- `SessionManager.get_offline_queue`: returns a copy of the queue; the
state is untouched (returned unchanged alongside the snapshot). -/
def get_offline_queue (st : SMState) : List QueueItem × SMState :=
  (st.offline_queue, st)

/-- The in-place photo update loop of `mark_photo_uploaded`: sets `drive_url`
and `uploaded` on the first photo whose `local_path` matches, then `break`s. -/
def updFirstPhoto (path url : String) : List Photo → List Photo
  | [] => []
  | p :: rest =>
    if p.local_path = path then
      { p with drive_url := some url, uploaded := true } :: rest
    else
      p :: updFirstPhoto path url rest

/-- `SessionManager.mark_photo_uploaded`: best-effort session-record update
(skipped when the session is missing; never raises), then unconditional
removal of every queue item with the given `(session_id, photo_path)` pair. -/
def mark_photo_uploaded (st : SMState) (sid path url : String) : SMState :=
  let sessions :=
    match lookupSession st.active_sessions sid with
    | some sess =>
        dictSet st.active_sessions sid { sess with photos := updFirstPhoto path url sess.photos }
    | none => st.active_sessions
  { active_sessions := sessions,
    offline_queue :=
      st.offline_queue.filter
        (fun it => ¬ (it.session_id = sid ∧ it.photo_path = path)) }

/-- `SessionManager.cleanup_old_sessions`: computes the cutoff
`now - timedelta(minutes=timeoutMin)`, collects the ids of sessions with
`created_at < cutoff`, then deletes each collected id from the dict. -/
def cleanup_old_sessions (st : SMState) (now timeoutMin : Int) : SMState :=
  let cutoff := now - 60 * timeoutMin
  let expired :=
    (st.active_sessions.filter (fun p => p.2.created_at < cutoff)).map Prod.fst
  { st with active_sessions := expired.foldl dictDel st.active_sessions }

/-- The contents of the persisted `offline_queue.json` file as seen by
`_load_offline_queue`: absent, present but unreadable / not valid JSON, or a
JSON list of queue-item records. -/
inductive FileContent where
  | missing
  | unparseable
  | items (l : List QueueItem)
deriving DecidableEq, Repr

/-- The per-item write conversion of `_save_offline_queue`: an `added_at`
that is a `datetime` is replaced by its ISO string, a string is kept as is. -/
def saveItem (it : QueueItem) : QueueItem :=
  { it with added_at :=
      match it.added_at with
      | .tdt d => .tstr { t := d }
      | .tstr s => .tstr s }

/-- `SessionManager._save_offline_queue`: writes the whole queue, each item
converted by `saveItem`. -/
def save_offline_queue (q : List QueueItem) : FileContent :=
  .items (q.map saveItem)

/-- The per-item read conversion of `_load_offline_queue`: an `added_at`
that is a string is parsed back into a `datetime`, anything else is kept. -/
def loadItem (it : QueueItem) : QueueItem :=
  { it with added_at :=
      match it.added_at with
      | .tstr s => .tdt s.t
      | .tdt d => .tdt d }

/-- The body of `_load_offline_queue`'s `try` block: raises on an unreadable
or unparseable file, otherwise yields the converted item list. -/
def loadBody : FileContent → Except Unit (List QueueItem)
  | .missing => .ok []
  | .unparseable => .error ()
  | .items l => .ok (l.map loadItem)

/-- `SessionManager._load_offline_queue`: does nothing when the file is
absent (the queue stays empty); otherwise runs `loadBody`, and on any
exception resets the queue to `[]`. Total: every exception is caught. -/
def load_offline_queue (fc : FileContent) : List QueueItem :=
  match fc with
  | .missing => []
  | _ =>
    match loadBody fc with
    | .ok q => q
    | .error _ => []

/-- `SessionManager.__init__`: empty session dict, then `_load_offline_queue`
on the persisted file. Total: construction never raises. -/
def sessionManagerInit (fc : FileContent) : SMState :=
  { active_sessions := [], offline_queue := load_offline_queue fc }

/-- Normalisation of an `added_at` value to its post-reload form (ISO string
parsed into the `datetime` it denotes). -/
def normItem (it : QueueItem) : QueueItem :=
  { it with added_at :=
      match it.added_at with
      | .tstr s => .tdt s.t
      | .tdt d => .tdt d }

/-- One item of the reconciliation pass of
`SelfieBoothCore._process_offline_queue`: the uploader `up` is called on the
item's path and session id; on success `mark_photo_uploaded` runs, on an
upload exception the item is skipped (logged) and the state is untouched. -/
def processItem (up : String → String → Except Unit String) (st : SMState)
    (it : QueueItem) : SMState :=
  match up it.photo_path it.session_id with
  | .ok url => mark_photo_uploaded st it.session_id it.photo_path url
  | .error _ => st

/-- `SelfieBoothCore._process_offline_queue`: takes a snapshot of the queue,
then attempts the first 5 items of that snapshot in order. -/
def process_offline_queue (up : String → String → Except Unit String)
    (st : SMState) : SMState :=
  (((get_offline_queue st).1).take 5).foldl (processItem up) st

/-- The result dict of `SelfieBoothCore.capture_photo`. -/
inductive CaptureResult where
  | success (session_id photo_path : String) (drive_url : Option String)
      (is_online : Bool)
  | failure
deriving DecidableEq, Repr

/-- The outcome of calling `self.network_monitor.is_online()` in
`SelfieBoothCore`. In src/core/network_monitor.py, `is_online` is a boolean
attribute (set in `__init__` and by the monitor loop), not a method, so the
call raises `TypeError` — modelled as `Except.error`. -/
def network_monitor_is_online_call : Except Unit Bool :=
  .error ()

/-- `SelfieBoothCore.capture_photo`: optional session reuse (a falsy
`session_id` triggers `create_session` with the fresh uuid `freshSid`), then
capture, optional overlay (`CameraManager.apply_overlay` catches its own
exceptions and is total), the `is_online()` check, an immediate upload
attempt whose exception is caught and degrades to `drive_url = None`, and
`add_photo`. Any uncaught exception (capture, the online check, `add_photo`)
hits the outer handler: the call returns the failure dict, keeping whatever
state mutations already happened. -/
def capture_photo (st : SMState) (session_id : Option String) (freshSid : String)
    (now : Int) (captureRes : Except Unit String) (applyOverlay : Bool)
    (overlayFn : String → String) (isOnlineCall : Except Unit Bool)
    (up : String → String → Except Unit String) : SMState × CaptureResult :=
  let needNew := falsy session_id
  let sid := if needNew then freshSid else session_id.getD ""
  let st1 := if needNew then create_session st freshSid now else st
  match captureRes with
  | .error _ => (st1, .failure)
  | .ok path0 =>
    let path := if applyOverlay then overlayFn path0 else path0
    match isOnlineCall with
    | .error _ => (st1, .failure)
    | .ok online =>
      let drive_url : Option String :=
        if online then
          match up path sid with
          | .ok url => some url
          | .error _ => none
        else none
      match add_photo st1 sid path drive_url now with
      | .error _ => (st1, .failure)
      | .ok st2 => (st2, .success sid path drive_url drive_url.isSome)

/-- The outcome of the ping probe in `NetworkMonitor._monitor_network`:
`subprocess.run` completes with an exit code, or raises `TimeoutExpired`, or
raises on execution failure. -/
inductive PingResult where
  | completed (returncode : Int)
  | timedOut
  | execFailed
deriving DecidableEq, Repr

/-- One connectivity-probe cycle of `NetworkMonitor._monitor_network`: the
new value of the `is_online` attribute. `subprocess.run` is called without
`check=True`, so a completed ping sets `is_online = True` regardless of its
exit code; only a raised exception (timeout, exec failure) sets it False. -/
def monitor_cycle_is_online : PingResult → Bool
  | .completed _ => true
  | .timedOut => false
  | .execFailed => false

/-! ## Helper lemmas about the dict and photo-list operations -/

theorem setEntry_fst (k : String) (v : Session) (p : String × Session) :
    (setEntry k v p).1 = p.1 := by
  unfold setEntry
  by_cases h : p.1 = k
  · simp [h]
  · simp [h]

theorem find?_map_setEntry (m : List (String × Session)) (k q : String) (v : Session) :
    (m.map (setEntry k v)).find? (fun p => p.1 = q) =
      ((m.find? (fun p => p.1 = q)).map (setEntry k v)) := by
  induction m with
  | nil => rfl
  | cons p rest ih =>
    by_cases h : p.1 = q
    · have h2 : (setEntry k v p).1 = q := by rw [setEntry_fst]; exact h
      simp [List.find?_cons, h, h2]
    · have h2 : ¬ (setEntry k v p).1 = q := by rw [setEntry_fst]; exact h
      simp [List.find?_cons, h, h2, ih]

theorem lookupSession_dictSet_self (m : List (String × Session)) (k : String)
    (v : Session) : lookupSession (dictSet m k v) k = some v := by
  unfold dictSet lookupSession
  by_cases h : m.any (fun p => p.1 = k) = true
  · rw [if_pos h, find?_map_setEntry]
    have hsome : (m.find? (fun p => decide (p.1 = k))).isSome := by
      rw [List.find?_isSome]
      obtain ⟨p, hp, hpk⟩ := List.any_eq_true.mp h
      exact ⟨p, hp, hpk⟩
    obtain ⟨q, hq⟩ := Option.isSome_iff_exists.mp hsome
    have hqk : q.1 = k := by
      have := List.find?_some hq
      exact of_decide_eq_true this
    rw [hq]
    simp [setEntry, hqk]
  · rw [if_neg h]
    have hrest : m.find? (fun p => decide (p.1 = k)) = none := by
      rw [List.find?_eq_none]
      intro p hp
      simp only [decide_eq_true_eq]
      intro hpk
      exact h (List.any_eq_true.mpr ⟨p, hp, by simpa using hpk⟩)
    rw [List.find?_append, hrest]
    simp

theorem lookupSession_dictSet_ne (m : List (String × Session)) (k sid : String)
    (v : Session) (h : ¬ sid = k) :
    lookupSession (dictSet m k v) sid = lookupSession m sid := by
  unfold dictSet lookupSession
  by_cases ha : m.any (fun p => p.1 = k) = true
  · rw [if_pos ha, find?_map_setEntry]
    cases hf : m.find? (fun p => decide (p.1 = sid)) with
    | none => simp
    | some q =>
      have hq0 := List.find?_some hf
      have hq : q.1 = sid := of_decide_eq_true hq0
      have hqk : ¬ q.1 = k := by rw [hq]; exact h
      simp [setEntry, hqk]
  · rw [if_neg ha, List.find?_append]
    cases hf : m.find? (fun p => decide (p.1 = sid)) with
    | none =>
      have : ¬ (k, v).1 = sid := fun hk => h hk.symm
      simp [this]
    | some q => simp

theorem find?_updFirstPhoto (path url : String) (l : List Photo) :
    (updFirstPhoto path url l).find? (fun ph => ph.local_path = path) =
      ((l.find? (fun ph => ph.local_path = path)).map
        (fun p => { p with drive_url := some url, uploaded := true })) := by
  induction l with
  | nil => rfl
  | cons p rest ih =>
    by_cases h : p.local_path = path
    · simp [updFirstPhoto, h, List.find?_cons]
    · simp [updFirstPhoto, h, List.find?_cons, ih]

theorem length_updFirstPhoto (path url : String) (l : List Photo) :
    (updFirstPhoto path url l).length = l.length := by
  induction l with
  | nil => rfl
  | cons p rest ih =>
    by_cases h : p.local_path = path
    · simp [updFirstPhoto, h]
    · simp [updFirstPhoto, h, ih]

theorem mark_photo_uploaded_queue (st : SMState) (sid path url : String) :
    (mark_photo_uploaded st sid path url).offline_queue =
      st.offline_queue.filter
        (fun it => ¬ (it.session_id = sid ∧ it.photo_path = path)) := rfl

theorem foldl_dictDel_eq_filter (ks : List String) (m : List (String × Session)) :
    ks.foldl dictDel m = m.filter (fun p => ¬ p.1 ∈ ks) := by
  induction ks generalizing m with
  | nil => simp
  | cons k rest ih =>
    rw [List.foldl_cons, ih]
    unfold dictDel
    rw [List.filter_filter]
    apply List.filter_congr
    intro p _
    by_cases h1 : p.1 = k
    · simp [h1]
    · by_cases h2 : p.1 ∈ rest
      · simp [h1, h2]
      · simp [h1, h2]

/-! ## Claim theorems -/

/-- C1: for every queue item whose upload attempt in the reconciliation path
returns a URL without raising, afterwards the offline queue contains no item
with that `(session_id, photo_path)` pair, and if the session is still in the
store, its first photo with that local path is marked `uploaded = true` with
`drive_url` set to the returned URL. -/
theorem c1_reconcile_success (up : String → String → Except Unit String)
    (st : SMState) (it : QueueItem) (url : String)
    (hup : up it.photo_path it.session_id = Except.ok url) :
    (∀ j ∈ (processItem up st it).offline_queue,
        ¬ (j.session_id = it.session_id ∧ j.photo_path = it.photo_path)) ∧
    (∀ sess, lookupSession st.active_sessions it.session_id = some sess →
      ∃ sess2,
        lookupSession (processItem up st it).active_sessions it.session_id =
            some sess2 ∧
          sess2.photos.find? (fun ph => ph.local_path = it.photo_path) =
            ((sess.photos.find? (fun ph => ph.local_path = it.photo_path)).map
              (fun p => { p with drive_url := some url, uploaded := true }))) := by
  unfold processItem
  rw [hup]
  constructor
  · intro j hj
    rw [mark_photo_uploaded_queue] at hj
    have := List.of_mem_filter hj
    exact of_decide_eq_true this
  · intro sess hsess
    unfold mark_photo_uploaded
    simp only [hsess]
    exact ⟨_, lookupSession_dictSet_self _ _ _, find?_updFirstPhoto _ _ _⟩

def c1up : String → String → Except Unit String := fun _ _ => Except.ok "u"

def c1st : SMState :=
  { active_sessions :=
      [("s", { created_at := 0,
               photos := [{ local_path := "p", drive_url := none,
                            captured_at := 1, uploaded := false }],
               folder_id := none, drive_url := none, is_online := true })],
    offline_queue := [{ session_id := "s", photo_path := "p",
                        added_at := .tstr { t := 1 } }] }

def c1it : QueueItem :=
  { session_id := "s", photo_path := "p", added_at := .tstr { t := 1 } }

theorem c1_reconcile_success_witness :
    c1up c1it.photo_path c1it.session_id = Except.ok "u" ∧
    ((∀ j ∈ (processItem c1up c1st c1it).offline_queue,
        ¬ (j.session_id = c1it.session_id ∧ j.photo_path = c1it.photo_path)) ∧
    (∀ sess, lookupSession c1st.active_sessions c1it.session_id = some sess →
      ∃ sess2,
        lookupSession (processItem c1up c1st c1it).active_sessions
            c1it.session_id = some sess2 ∧
          sess2.photos.find? (fun ph => ph.local_path = c1it.photo_path) =
            ((sess.photos.find? (fun ph => ph.local_path = c1it.photo_path)).map
              (fun p => { p with drive_url := some "u", uploaded := true })))) :=
  ⟨rfl, c1_reconcile_success c1up c1st c1it "u" rfl⟩

/-- C6: `mark_photo_uploaded` on a missing session id does not raise (it is a
total operation), leaves the session store unchanged, and still removes every
queue item matching the `(session_id, photo_path)` pair. -/
theorem c6_mark_missing_session (st : SMState) (sid path url : String)
    (h : lookupSession st.active_sessions sid = none) :
    (mark_photo_uploaded st sid path url).active_sessions = st.active_sessions ∧
    (mark_photo_uploaded st sid path url).offline_queue =
      st.offline_queue.filter
        (fun it => ¬ (it.session_id = sid ∧ it.photo_path = path)) ∧
    ∀ it ∈ (mark_photo_uploaded st sid path url).offline_queue,
      ¬ (it.session_id = sid ∧ it.photo_path = path) := by
  refine ⟨?_, rfl, ?_⟩
  · unfold mark_photo_uploaded
    simp only [h]
  · intro it hit
    rw [mark_photo_uploaded_queue] at hit
    have := List.of_mem_filter hit
    exact of_decide_eq_true this

def c6st : SMState :=
  { active_sessions := [],
    offline_queue :=
      [{ session_id := "s", photo_path := "p", added_at := .tstr { t := 0 } },
       { session_id := "t", photo_path := "q", added_at := .tstr { t := 0 } }] }

theorem c6_mark_missing_session_witness :
    lookupSession c6st.active_sessions "s" = none ∧
    ((mark_photo_uploaded c6st "s" "p" "u").active_sessions =
        c6st.active_sessions ∧
    (mark_photo_uploaded c6st "s" "p" "u").offline_queue =
      c6st.offline_queue.filter
        (fun it => ¬ (it.session_id = "s" ∧ it.photo_path = "p")) ∧
    ∀ it ∈ (mark_photo_uploaded c6st "s" "p" "u").offline_queue,
      ¬ (it.session_id = "s" ∧ it.photo_path = "p")) :=
  ⟨rfl, c6_mark_missing_session c6st "s" "p" "u" rfl⟩

/-- C7: reading the offline queue (`get_offline_queue`) does not change the
state, repeated reads with no intervening successful attempt return the same
snapshot, and a reconciliation attempt whose upload raises leaves the entire
state — in particular the queue snapshot and the failed item — unchanged. -/
theorem c7_failed_attempt_frame (up : String → String → Except Unit String)
    (st : SMState) (it : QueueItem)
    (h : up it.photo_path it.session_id = Except.error ()) :
    processItem up st it = st ∧
    (get_offline_queue st).2 = st ∧
    (get_offline_queue ((get_offline_queue st).2)).1 = (get_offline_queue st).1 ∧
    (get_offline_queue (processItem up st it)).1 = (get_offline_queue st).1 := by
  have h1 : processItem up st it = st := by
    unfold processItem
    rw [h]
  exact ⟨h1, rfl, rfl, by rw [h1]⟩

def c7up : String → String → Except Unit String := fun _ _ => Except.error ()

theorem c7_failed_attempt_frame_witness :
    c7up c1it.photo_path c1it.session_id = Except.error () ∧
    (processItem c7up c1st c1it = c1st ∧
    (get_offline_queue c1st).2 = c1st ∧
    (get_offline_queue ((get_offline_queue c1st).2)).1 =
      (get_offline_queue c1st).1 ∧
    (get_offline_queue (processItem c7up c1st c1it)).1 =
      (get_offline_queue c1st).1) :=
  ⟨rfl, c7_failed_attempt_frame c7up c1st c1it rfl⟩

def c2_base : SMState :=
  create_session { active_sessions := [], offline_queue := [] } "s" 0

def c2_once : SMState :=
  match add_photo c2_base "s" "p" none 1 with
  | .ok st => st
  | .error _ => c2_base

def c2_twice : SMState :=
  match add_photo c2_once "s" "p" none 2 with
  | .ok st => st
  | .error _ => c2_once

/-- C2 counterexample: two `add_photo` calls with the same
`(session_id, photo_path)` pair and no URL leave TWO matching items in the
offline queue, not exactly one — re-enqueuing is not a no-op. -/
theorem c2_counterexample :
    (c2_twice.offline_queue.filter
        (fun it => it.session_id = "s" ∧ it.photo_path = "p")).length = 2 ∧
    ¬ (c2_twice.offline_queue.filter
        (fun it => it.session_id = "s" ∧ it.photo_path = "p")).length = 1 := by
  constructor
  · rfl
  · decide

/-- C2 (amended): re-enqueuing is not deduplicated — every `add_photo` call
with no URL on an existing session appends one fresh queue item for its
`(session_id, photo_path)` pair, so the count of matching items grows by one
on each duplicate enqueue. -/
theorem c2_enqueue_appends (st : SMState) (sid path : String) (now : Int)
    (sess : Session) (h : lookupSession st.active_sessions sid = some sess) :
    ∃ st2, add_photo st sid path none now = Except.ok st2 ∧
      st2.offline_queue = st.offline_queue ++
        [{ session_id := sid, photo_path := path, added_at := .tstr { t := now } }] ∧
      (st2.offline_queue.filter
          (fun it => it.session_id = sid ∧ it.photo_path = path)).length =
        (st.offline_queue.filter
          (fun it => it.session_id = sid ∧ it.photo_path = path)).length + 1 := by
  unfold add_photo
  rw [h]
  refine ⟨_, rfl, rfl, ?_⟩
  rw [List.filter_append]
  simp

theorem c2_enqueue_appends_witness :
    lookupSession c2_base.active_sessions "s" =
      some { created_at := 0, photos := [], folder_id := none,
             drive_url := none, is_online := true } ∧
    ∃ st2, add_photo c2_base "s" "p" none 1 = Except.ok st2 ∧
      st2.offline_queue = c2_base.offline_queue ++
        [{ session_id := "s", photo_path := "p", added_at := .tstr { t := 1 } }] ∧
      (st2.offline_queue.filter
          (fun it => it.session_id = "s" ∧ it.photo_path = "p")).length =
        (c2_base.offline_queue.filter
          (fun it => it.session_id = "s" ∧ it.photo_path = "p")).length + 1 :=
  ⟨rfl, c2_enqueue_appends c2_base "s" "p" 1
    { created_at := 0, photos := [], folder_id := none,
      drive_url := none, is_online := true } rfl⟩

def c3_base : SMState :=
  create_session { active_sessions := [], offline_queue := [] } "s" 0

def c3_added : SMState :=
  match add_photo c3_base "s" "p" none 1 with
  | .ok st => st
  | .error _ => c3_base

def c3_final : SMState := mark_photo_uploaded c3_added "s" "p" "u"

/-- C3 counterexample: in the claim's scenario — one photo added with no URL,
then the queued upload succeeds (`mark_photo_uploaded` applied) — the queue
is empty and the photo record is uploaded with its URL, yet `get_qr_data`
returns the `offline` payload, not `online` with `photo_count = 1`. -/
theorem c3_counterexample :
    get_qr_data c3_final "s" =
      some (QRData.offline "s" 1 "Photos will be available online later") ∧
    c3_final.offline_queue = [] ∧
    lookupSession c3_final.active_sessions "s" =
      some { created_at := 0,
             photos := [{ local_path := "p", drive_url := some "u",
                          captured_at := 1, uploaded := true }],
             folder_id := none, drive_url := none, is_online := true } := by
  refine ⟨rfl, rfl, rfl⟩

theorem get_qr_data_sessions_only (st1 st2 : SMState) (sid : String)
    (h : st1.active_sessions = st2.active_sessions) :
    get_qr_data st1 sid = get_qr_data st2 sid := by
  unfold get_qr_data lookupSession
  rw [h]

/-- C3 (amended): `get_qr_data` answers `online` only from the session-level
`drive_url` field, which `mark_photo_uploaded` never sets — the QR payload of
every session is unchanged by an upload; in the claim's scenario (one photo
added with no URL, queued upload succeeds) it returns the `offline` payload
with `photo_count = 1`, not `online`. -/
theorem c3_qr_unaffected_by_upload (st : SMState) (sid path url sid2 : String) :
    get_qr_data (mark_photo_uploaded st sid path url) sid2 = get_qr_data st sid2 ∧
    get_qr_data c3_final "s" =
      some (QRData.offline "s" 1 "Photos will be available online later") := by
  refine ⟨?_, rfl⟩
  cases hls : lookupSession st.active_sessions sid with
  | none =>
    apply get_qr_data_sessions_only
    unfold mark_photo_uploaded
    simp only [hls]
  | some sess =>
    have hm : (mark_photo_uploaded st sid path url).active_sessions =
        dictSet st.active_sessions sid
          { sess with photos := updFirstPhoto path url sess.photos } := by
      unfold mark_photo_uploaded
      simp only [hls]
    by_cases hsid : sid2 = sid
    · subst hsid
      unfold get_qr_data
      rw [hm, lookupSession_dictSet_self, hls]
      simp [length_updFirstPhoto]
    · unfold get_qr_data
      rw [hm, lookupSession_dictSet_ne _ _ _ _ hsid]

/-- C4: evaluation of the probe cycle of `NetworkMonitor._monitor_network` at
the failing input — a ping that completes with a non-zero exit code (host
unreachable) sets `is_online = True`, because `subprocess.run` is called
without `check=True`; only a raised timeout or exec failure yields `False`.
The claim says a non-success ping result must yield the Offline state. -/
theorem c4_failed_ping_marks_online :
    monitor_cycle_is_online (PingResult.completed 1) = true ∧
    monitor_cycle_is_online PingResult.timedOut = false ∧
    monitor_cycle_is_online PingResult.execFailed = false :=
  ⟨rfl, rfl, rfl⟩

/-- C5: evaluation of `capture_photo` at the failing input — fresh session,
capture succeeds, uploader would succeed — with the `is_online()` call as the
code makes it (`is_online` is a boolean attribute, so the call raises
`TypeError`). The result is the failure dict and no photo is recorded or
enqueued (the freshly created empty session remains in the store), against
the claim that post-capture failures degrade to enqueueing with a success
result. -/
theorem c5_online_check_typeerror :
    capture_photo { active_sessions := [], offline_queue := [] } none "s" 0
        (Except.ok "p") true (fun path => path)
        network_monitor_is_online_call (fun _ _ => Except.ok "http") =
      ({ active_sessions :=
            [("s", { created_at := 0, photos := [], folder_id := none,
                     drive_url := none, is_online := true })],
         offline_queue := [] }, CaptureResult.failure) := rfl

def c8_queue : List QueueItem :=
  [{ session_id := "s", photo_path := "p", added_at := .tstr { t := 0 } }]

/-- C8 counterexample: a queue holding one item freshly enqueued by
`add_photo` (its `added_at` is an ISO string) does not round-trip through
`_save_offline_queue` / `_load_offline_queue`: the reload parses `added_at`
into a `datetime`, so the recovered snapshot differs from the pre-restart
snapshot. -/
theorem c8_counterexample :
    ¬ load_offline_queue (save_offline_queue c8_queue) = c8_queue := by
  decide

/-- C8 (amended): saving then reloading recovers exactly the pending set —
every item's `session_id` and `photo_path`, in order — but normalises each
`added_at` to the parsed `datetime` of the ISO string it stored, so the
snapshots are equal only up to that conversion (`normItem`). -/
theorem c8_roundtrip_normalized (q : List QueueItem) :
    load_offline_queue (save_offline_queue q) = q.map normItem ∧
    (load_offline_queue (save_offline_queue q)).map
        (fun it => (it.session_id, it.photo_path)) =
      q.map (fun it => (it.session_id, it.photo_path)) := by
  have h1 : load_offline_queue (save_offline_queue q) = q.map normItem := by
    show (q.map saveItem).map loadItem = q.map normItem
    rw [List.map_map]
    apply List.map_congr_left
    intro it _
    obtain ⟨sid, path, at0⟩ := it
    cases at0 <;> rfl
  refine ⟨h1, ?_⟩
  rw [h1, List.map_map]
  apply List.map_congr_left
  intro it _
  obtain ⟨sid, path, at0⟩ := it
  cases at0 <;> rfl

/-- C9: under the dict's unique-keys invariant, `cleanup_old_sessions`
removes exactly the sessions with `created_at < now - timeout` and leaves
every other entry untouched (in order); a session created at `t0` survives a
cleanup run at `t0 + timeout - 1` and is gone after a cleanup run at
`t0 + timeout + 1`. -/
theorem c9_cleanup_exact (st : SMState) (now timeoutMin : Int)
    (hN : (st.active_sessions.map Prod.fst).Nodup) :
    (cleanup_old_sessions st now timeoutMin).active_sessions =
      st.active_sessions.filter
        (fun p => ¬ p.2.created_at < now - 60 * timeoutMin) ∧
    ∀ sid sess, lookupSession st.active_sessions sid = some sess →
      ((sid, sess) ∈
          (cleanup_old_sessions st (sess.created_at + 60 * timeoutMin - 1)
              timeoutMin).active_sessions ∧
        ∀ s2, ¬ (sid, s2) ∈
          (cleanup_old_sessions st (sess.created_at + 60 * timeoutMin + 1)
              timeoutMin).active_sessions) := by
  have inj := List.inj_on_of_nodup_map hN
  have key : ∀ n2 : Int,
      (cleanup_old_sessions st n2 timeoutMin).active_sessions =
        st.active_sessions.filter
          (fun p => ¬ p.2.created_at < n2 - 60 * timeoutMin) := by
    intro n2
    simp only [cleanup_old_sessions]
    rw [foldl_dictDel_eq_filter]
    apply List.filter_congr
    intro p hp
    apply decide_eq_decide.mpr
    constructor
    · intro hkey
      intro hst
      exact hkey (List.mem_map_of_mem _
        (List.mem_filter.mpr ⟨hp, by simpa using hst⟩))
    · intro hst hkey
      obtain ⟨q, hq, hq1⟩ := List.mem_map.mp hkey
      have hqf := List.mem_filter.mp hq
      have hqp : q = p := inj hqf.1 hp hq1
      rw [hqp] at hqf
      exact hst (by simpa using hqf.2)
  refine ⟨key now, ?_⟩
  intro sid sess hls
  have hmem : (sid, sess) ∈ st.active_sessions := by
    unfold lookupSession at hls
    cases hf : st.active_sessions.find? (fun p => p.1 = sid) with
    | none =>
      rw [hf] at hls
      simp at hls
    | some q =>
      rw [hf] at hls
      have hq0 := List.find?_some hf
      have hq1 : q.1 = sid := of_decide_eq_true hq0
      have hq2 : q.2 = sess := by simpa using hls
      have hqm := List.mem_of_find?_eq_some hf
      rw [← hq1, ← hq2]
      simpa using hqm
  constructor
  · rw [key]
    apply List.mem_filter.mpr
    refine ⟨hmem, ?_⟩
    simp only [decide_eq_true_eq]
    show ¬ sess.created_at <
      sess.created_at + 60 * timeoutMin - 1 - 60 * timeoutMin
    omega
  · intro s2 hmem2
    rw [key] at hmem2
    have h2 := List.mem_filter.mp hmem2
    have hs2 : (sid, s2) = (sid, sess) := inj h2.1 hmem rfl
    have hcond := of_decide_eq_true h2.2
    have hs2e : s2 = sess := by
      have := congrArg Prod.snd hs2
      simpa using this
    rw [hs2e] at hcond
    have hcond2 : ¬ sess.created_at <
        sess.created_at + 60 * timeoutMin + 1 - 60 * timeoutMin := hcond
    omega

def c9st : SMState :=
  { active_sessions :=
      [("a", { created_at := 0, photos := [], folder_id := none,
               drive_url := none, is_online := true }),
       ("b", { created_at := 600, photos := [], folder_id := none,
               drive_url := none, is_online := true })],
    offline_queue := [] }

theorem c9_cleanup_exact_witness :
    (c9st.active_sessions.map Prod.fst).Nodup ∧
    ((cleanup_old_sessions c9st 100 1).active_sessions =
      c9st.active_sessions.filter
        (fun p => ¬ p.2.created_at < 100 - 60 * 1) ∧
    ∀ sid sess, lookupSession c9st.active_sessions sid = some sess →
      ((sid, sess) ∈
          (cleanup_old_sessions c9st (sess.created_at + 60 * 1 - 1)
              1).active_sessions ∧
        ∀ s2, ¬ (sid, s2) ∈
          (cleanup_old_sessions c9st (sess.created_at + 60 * 1 + 1)
              1).active_sessions)) :=
  ⟨by decide, c9_cleanup_exact c9st 100 1 (by decide)⟩

/-- C10: `SessionManager` construction is total for every state of the
persisted queue file — the store starts empty and the queue is whatever
`_load_offline_queue` yields; the load body raises on an unparseable file and
the handler resets the queue to empty (the persisted pending set is
discarded), and a missing file also leaves the queue empty. -/
theorem c10_init_never_fails (fc : FileContent) :
    sessionManagerInit fc =
      { active_sessions := [], offline_queue := load_offline_queue fc } ∧
    loadBody FileContent.unparseable = Except.error () ∧
    load_offline_queue FileContent.unparseable = [] ∧
    load_offline_queue FileContent.missing = [] :=
  ⟨rfl, rfl, rfl, rfl⟩
